import Mathlib

/-!
Shallow embedding of the request-dispatch core of the `core-mcp-servers`
repository: three AWS-Lambda MCP servers (`gov_uk_acronyms`, `gov_uk_search`,
`wikipedia`), each consisting of one `handle_request` JSON-RPC dispatcher and
one to three tool-adapter functions.  Python dictionaries become association
lists, JSON values become the inductive `JVal`, Python exceptions become the
`PyExn` type threaded through `Except`, and every outbound network call
(`requests.get`, the `wikipedia` client) enters the embedding as an explicit
oracle parameter describing the external world's reply (a value or a raised
exception).
-/

set_option autoImplicit false

namespace McpServers

/-- A JSON value as it appears in a decoded JSON-RPC request or response.
Objects are association lists in insertion order (Python dicts preserve
insertion order). -/
inductive JVal where
  | jnull
  | jbool (b : Bool)
  | jnum (n : Int)
  | jstr (s : String)
  | jarr (elems : List JVal)
  | jobj (fields : List (String × JVal))
  deriving Repr

/-- Python truthiness (`bool(v)`) of a JSON value: `None`, `False`, `0`, `""`,
`[]` and `{}` are falsy, everything else truthy. -/
def pyTruthy : JVal → Bool
  | .jnull => false
  | .jbool b => b
  | .jnum n => n != 0
  | .jstr s => s ≠ ""
  | .jarr xs => !xs.isEmpty
  | .jobj fs => !fs.isEmpty

/-- Truthiness of a `dict.get` result: a missing key (`None`) is falsy. -/
def optTruthy : Option JVal → Bool
  | none => false
  | some v => pyTruthy v

/-- `d.get(key)` on a Python dict rendered as an association list. -/
def dictGet (d : List (String × JVal)) (key : String) : Option JVal :=
  d.lookup key

/-- Hex digit character (lowercase), as Python uses in `\xhh` / `\uhhhh`. -/
def hexDigit (n : Nat) : Char :=
  if n < 10 then Char.ofNat (48 + n) else Char.ofNat (87 + n)

/-- Two-digit lowercase hex rendering. -/
def hex2 (n : Nat) : String :=
  String.mk [hexDigit ((n / 16) % 16), hexDigit (n % 16)]

/-- Four-digit lowercase hex rendering. -/
def hex4 (n : Nat) : String :=
  String.mk [hexDigit ((n / 4096) % 16), hexDigit ((n / 256) % 16),
             hexDigit ((n / 16) % 16), hexDigit (n % 16)]

/-- Python `repr` of a string: quote choice (single quotes unless the string
contains a single quote and no double quote) plus escaping of the backslash,
the quote character, and control characters. -/
def pyReprStr (s : String) : String :=
  let hasSingle := s.data.contains '\x27'
  let hasDouble := s.data.contains '"'
  let q : Char := if hasSingle && !hasDouble then '"' else '\x27'
  let esc : Char → String := fun c =>
    if c = '\\' then "\\\\"
    else if c = q then "\\" ++ String.mk [q]
    else if c = '\n' then "\\n"
    else if c = '\r' then "\\r"
    else if c = '\t' then "\\t"
    else if c.toNat < 0x20 || c.toNat = 0x7f then "\\x" ++ hex2 c.toNat
    else String.mk [c]
  String.mk [q] ++ String.join (s.data.map esc) ++ String.mk [q]

mutual

/-- Python `repr` of a JSON value (the rendering used for elements of
containers in `str(...)`/f-strings). -/
def pyRepr : JVal → String
  | .jnull => "None"
  | .jbool b => if b then "True" else "False"
  | .jnum n => toString n
  | .jstr s => pyReprStr s
  | .jarr xs => "[" ++ pyReprCommaSep xs ++ "]"
  | .jobj fs => "\x7b" ++ pyReprFields fs ++ "\x7d"

/-- Comma-separated `repr` rendering of list elements. -/
def pyReprCommaSep : List JVal → String
  | [] => ""
  | [x] => pyRepr x
  | x :: xs => pyRepr x ++ ", " ++ pyReprCommaSep xs

/-- Comma-separated `repr` rendering of dict entries. -/
def pyReprFields : List (String × JVal) → String
  | [] => ""
  | [(k, v)] => pyReprStr k ++ ": " ++ pyRepr v
  | (k, v) :: fs => pyReprStr k ++ ": " ++ pyRepr v ++ ", " ++ pyReprFields fs

end

/-- Python `str(v)`: identical to `repr` except that a top-level string is
rendered without quotes. -/
def pyStrJ : JVal → String
  | .jstr s => s
  | v => pyRepr v

/-- Python `str` of a value that may be `None` (e.g. the result of
`dict.get` interpolated into an f-string): `str(None) = "None"`. -/
def pyStrOpt : Option JVal → String
  | none => "None"
  | some v => pyStrJ v

/-- A raised Python exception: the two classes the dispatch core
distinguishes (`requests.RequestException` and everything else), each
carrying its `str(e)` message text. -/
inductive PyExn where
  | requestException (message : String)
  | otherException (message : String)
  deriving Repr, DecidableEq

/-- `str(e)` of a raised exception. -/
def PyExn.msg : PyExn → String
  | .requestException m => m
  | .otherException m => m

/-- The Python type name of a JSON value, as it appears in `AttributeError`
and `TypeError` messages. -/
def pyTypeName : JVal → String
  | .jnull => "NoneType"
  | .jbool _ => "bool"
  | .jnum _ => "int"
  | .jstr _ => "str"
  | .jarr _ => "list"
  | .jobj _ => "dict"

/-- `v.get(key)` where `v` is an arbitrary value: succeeds on a dict,
raises `AttributeError` otherwise (the message is `str` of the
`AttributeError`). -/
def pyGetAttrGet (v : JVal) (key : String) : Except PyExn (Option JVal) :=
  match v with
  | .jobj fs => .ok (dictGet fs key)
  | other => .error (.otherException
      ("\x27" ++ pyTypeName other ++ "\x27 object has no attribute \x27get\x27"))

/-- `v.get(key, default)` with a default value: raises on non-dicts. -/
def pyGetAttrGetD (v : JVal) (key : String) (dflt : JVal) : Except PyExn JVal :=
  match v with
  | .jobj fs => .ok ((dictGet fs key).getD dflt)
  | other => .error (.otherException
      ("\x27" ++ pyTypeName other ++ "\x27 object has no attribute \x27get\x27"))

/-- `v[key]` subscription with a string key: value on a dict with the key
present, `KeyError` on a dict without it, `TypeError` otherwise. -/
def pyGetItem (v : JVal) (key : String) : Except PyExn JVal :=
  match v with
  | .jobj fs =>
      match dictGet fs key with
      | some x => .ok x
      | none => .error (.otherException ("\x27" ++ key ++ "\x27"))
  | other => .error (.otherException
      ("\x27" ++ pyTypeName other ++ "\x27 object is not subscriptable"))

/-- `for x in v`: the sequence of iterates of a value (list elements, the
characters of a string, the keys of a dict), or `TypeError` for
non-iterables. -/
def pyIter (v : JVal) : Except PyExn (List JVal) :=
  match v with
  | .jarr xs => .ok xs
  | .jstr s => .ok (s.data.map (fun c => .jstr (String.mk [c])))
  | .jobj fs => .ok (fs.map (fun kv => .jstr kv.1))
  | other => .error (.otherException
      ("\x27" ++ pyTypeName other ++ "\x27 object is not iterable"))

/-- `v.startswith(p)`: prefix test on a string, `AttributeError` on any
other value. -/
def pyStartswith (v : JVal) (p : String) : Except PyExn Bool :=
  match v with
  | .jstr s => .ok (p.isPrefixOf s)
  | other => .error (.otherException
      ("\x27" ++ pyTypeName other ++ "\x27 object has no attribute \x27startswith\x27"))

/-- Does `dict.get("name")` yield exactly the given string?  Mirrors the
Python comparison `tool_name == "..."`: a comparison of a non-string (or a
missing key) against a string literal is `False`. -/
def isStrVal (v : Option JVal) (s : String) : Bool :=
  match v with
  | some (.jstr t) => t = s
  | _ => false

/-! ### String scanning utilities for the fixed regular expressions -/

/-- Length of the leading run of characters satisfying `p`. -/
def countWhile (p : Char → Bool) : List Char → Nat
  | [] => 0
  | c :: t => if p c then countWhile p t + 1 else 0

/-- First index `≥ i` at which `pat` occurs in the remaining haystack. -/
def findSubAux (pat : List Char) : List Char → Nat → Option Nat
  | [], i => if pat.isEmpty then some i else none
  | c :: t, i => if pat.isPrefixOf (c :: t) then some i else findSubAux pat t (i + 1)

/-- Index of the first occurrence of `pat` in `hay` (Python `hay.find(pat)`
when it succeeds). -/
def findSubIdx (hay pat : List Char) : Option Nat :=
  findSubAux pat hay 0

/-- Python substring containment `pat in hay`. -/
def containsSub (hay pat : String) : Bool :=
  (findSubIdx hay.data pat.data).isSome

/-- The regex `\s` character class (ASCII part, which is all the scraped
HTML exercises). -/
def isPySpace (c : Char) : Bool :=
  c = ' ' || c = '\t' || c = '\n' || c = '\r' || c.toNat = 11 || c.toNat = 12

/-- Python `str.upper` (ASCII part). -/
def pyUpper (s : String) : String :=
  String.map Char.toUpper s

/-- One attempted match of the pattern `pre\s+mid(.*?)close` (with `re.S`)
at the head of `s`: the literal `pre`, one or more whitespace characters,
the literal `mid`, then a lazy capture up to the first occurrence of the
literal `close`.  Returns the captured group and the suffix after the match.
(Backtracking over the `\s+` run is vacuous because in both patterns used
by the source, `mid` starts with a non-whitespace character.) -/
def matchTagAt (pre mid close : List Char) (s : List Char) : Option (String × List Char) :=
  if pre.isPrefixOf s then
    let s1 := s.drop pre.length
    let wsLen := countWhile isPySpace s1
    if wsLen = 0 then none
    else
      let s2 := s1.drop wsLen
      if mid.isPrefixOf s2 then
        let s3 := s2.drop mid.length
        match findSubIdx s3 close with
        | some j => some (String.mk (s3.take j), s3.drop (j + close.length))
        | none => none
      else none
  else none

/-- `re.findall` scan for `matchTagAt`: try a match at every position, left
to right, non-overlapping, resuming after each match.  Fuelled by the input
length (each step consumes at least one character). -/
def findallTagAux (pre mid close : List Char) : Nat → List Char → List String
  | 0, _ => []
  | fuel + 1, s =>
    match matchTagAt pre mid close s with
    | some (g, rest) => g :: findallTagAux pre mid close fuel rest
    | none =>
      match s with
      | [] => []
      | _ :: t => findallTagAux pre mid close fuel t

/-- `re.findall(pre + "\\s+" + mid + "(.*?)" + close, html, flags=re.S)`. -/
def findallTag (pre mid close : String) (html : String) : List String :=
  findallTagAux pre.data mid.data close.data (html.data.length + 1) html.data

/-! ### The `gov_uk_acronyms` tool adapter (`search_gov_uk_acronyms`) -/

/-- One row of the parsed acronyms table (the dict the source stores under
`data[acro.upper()]`). -/
structure AcronymRecord where
  acronym : String
  meaning : String
  definition : String
  department : String
  team : String
  deriving Repr, DecidableEq

/-- Insert-or-overwrite into a Python dict rendered as an association list:
an existing key keeps its position and gets the new value (Python dicts
preserve the original insertion position on overwrite). -/
def dictInsert {α : Type} (d : List (String × α)) (k : String) (v : α) : List (String × α) :=
  match d with
  | [] => [(k, v)]
  | (k0, v0) :: rest => if k0 = k then (k, v) :: rest else (k0, v0) :: dictInsert rest k v

/-- The source's `ITEMS_PER_ROW` constant. -/
def ITEMS_PER_ROW : Nat := 4

/-- The dict-building loop of `search_gov_uk_acronyms`: for each parsed
acronym, if its four info cells are in range, store the row under the
upper-cased acronym.  (The source's inner `except IndexError: continue` is
unreachable because of the explicit bound check; accesses are rendered with
`getD`, whose default is never used under the guard.) -/
def buildData (acronyms info : List String) : List (String × AcronymRecord) :=
  acronyms.enum.foldl
    (fun data p =>
      let index := p.1
      let acro := p.2
      if index * ITEMS_PER_ROW + 3 < info.length then
        dictInsert data (pyUpper acro)
          { acronym := acro
            meaning := (info.getD (index * ITEMS_PER_ROW) "").trim
            definition := (info.getD (index * ITEMS_PER_ROW + 1) "").trim
            department := (info.getD (index * ITEMS_PER_ROW + 2) "").trim
            team := (info.getD (index * ITEMS_PER_ROW + 3) "").trim }
      else data)
    []

/-- The pure part of `search_gov_uk_acronyms` after the HTTP fetch returned
page text: parse the two table-cell patterns, build the data dict, and
format the exact-match, partial-match, or not-found reply. -/
def acronymsProcess (html : String) (acronym : String) : String :=
  let acronyms := (findallTag "<th" "scope=\"row\" class=\"govuk-table__header\">" "</th>" html).map String.trim
  let info := (findallTag "<td" "class=\"govuk-table__cell\">" "</td>" html).map String.trim
  let data := buildData acronyms info
  let acronymUpper := pyUpper acronym
  match data.lookup acronymUpper with
  | none =>
    let similarKeys := (data.map Prod.fst).filter
      (fun key => containsSub key acronymUpper || containsSub acronymUpper key)
    if similarKeys.isEmpty then
      "No definition found for acronym \x27" ++ acronym ++
        "\x27. The acronym may not be in the UK government database."
    else
      let matchesInfo := (similarKeys.take 3).map (fun k =>
        match data.lookup k with
        | some md => md.acronym ++ ": " ++ md.meaning
        | none => "")
      "No exact match found for \x27" ++ acronym ++ "\x27. Similar acronyms:\n" ++
        String.intercalate "\n" matchesInfo
  | some m =>
    let parts := [m.acronym ++ " stands for " ++ m.meaning ++ "."]
    let parts := if m.definition ≠ "" then parts ++ ["Definition: " ++ m.definition] else parts
    let parts := if m.department ≠ "" then parts ++ ["Department: " ++ m.department] else parts
    let parts := if m.team ≠ "" then parts ++ ["Team: " ++ m.team] else parts
    String.intercalate " " parts

/-- `search_gov_uk_acronyms(acronym)`.  The HTTP fetch of the acronyms page
(`requests.get` + `raise_for_status` + `.text`) enters as the oracle
`fetch`; the `try`/`except` converts a raised `requests.RequestException`
or any other exception into the two descriptive error strings. -/
def search_gov_uk_acronyms (fetch : Except PyExn String) (acronym : String) : String :=
  match fetch with
  | .ok html => acronymsProcess html acronym
  | .error (.requestException m) =>
      "Error fetching data from UK government acronyms database: " ++ m
  | .error (.otherException m) =>
      "Error processing acronym lookup: " ++ m

/-! ### The `gov_uk_search` tool adapter (`search_gov_uk`) -/

/-- Case-insensitive literal test at position `i` (the haystack `low` is
pre-lowered; pattern literals are written lowercase). -/
def litAt (low : List Char) (i : Nat) (lit : List Char) : Bool :=
  lit.isPrefixOf (low.drop i)

/-- Backtracking matcher for a pattern tail of the form
`([^c₁]*lit₁)([^c₂]*lit₂)…(.*?)close` starting at position `i`: each
segment is a greedy excluded-character gap followed by a literal (longest
gap tried first, with full backtracking across segments), and the base case
is the lazy capture up to the first `close`.  Returns the capture's start
position and length.  Fuelled by the number of segments. -/
def matchSegsFuel (low : List Char) (close : List Char) :
    Nat → List (Char × List Char) → Nat → Option (Nat × Nat)
  | 0, _, _ => none
  | _ + 1, [], i =>
    match findSubIdx (low.drop i) close with
    | some j => some (i, j)
    | none => none
  | fuel + 1, (c, lit) :: rest, i =>
    let run := countWhile (fun x => x != c) (low.drop i)
    ((List.range (run + 1)).reverse).findSome? (fun d =>
      let p := i + d
      if litAt low p lit then matchSegsFuel low close fuel rest (p + lit.length)
      else none)

/-- One attempted match of `<main…>(.*?)</main>` at position `i`: the
literal `<main`, then the given attribute segments, then the lazy capture.
The capture is sliced from the original (non-lowered) text, as `re` returns
original-case groups under `re.IGNORECASE`. -/
def matchMainAt (low orig : List Char) (segs : List (Char × List Char)) (i : Nat) :
    Option String :=
  if litAt low i "<main".data then
    match matchSegsFuel low "</main>".data (segs.length + 1) segs (i + 5) with
    | some (e, j) => some (String.mk ((orig.drop e).take j))
    | none => none
  else none

/-- `re.search` scan: try the pattern at each position left to right and
return the first (leftmost) match's group 1. -/
def searchMainAux (low orig : List Char) (segs : List (Char × List Char)) :
    Nat → Nat → Option String
  | 0, _ => none
  | fuel + 1, i =>
    match matchMainAt low orig segs i with
    | some g => some g
    | none => if i < low.length then searchMainAux low orig segs fuel (i + 1) else none

/-- `re.search` over the whole text with `re.DOTALL | re.IGNORECASE`. -/
def searchMain (html : String) (segs : List (Char × List Char)) : Option String :=
  let orig := html.data
  let low := orig.map Char.toLower
  searchMainAux low orig segs (low.length + 1) 0

/-- Attribute segments of the primary pattern
`<main[^>]*role="main"[^>]*id="content"[^>]*class="govuk-main-wrapper[^"]*"[^>]*>`. -/
def mainSegsFull : List (Char × List Char) :=
  [('>', "role=\"main\"".data), ('>', "id=\"content\"".data),
   ('>', "class=\"govuk-main-wrapper".data), ('"', "\"".data), ('>', ">".data)]

/-- Attribute segments of the fallback pattern `<main[^>]*role="main"[^>]*>`. -/
def mainSegsFallback : List (Char × List Char) :=
  [('>', "role=\"main\"".data), ('>', ">".data)]

/-- `extract_body_content(html_content)`: group 1 of the primary `<main>`
pattern stripped, else group 1 of the fallback pattern stripped, else the
whole content unchanged. -/
def extract_body_content (html_content : String) : String :=
  match searchMain html_content mainSegsFull with
  | some g => g.trim
  | none =>
    match searchMain html_content mainSegsFallback with
    | some g => g.trim
    | none => html_content

/-- `scrape_url(url)`: the page fetch (`requests.get` + `raise_for_status`
+ `.text`) enters as the oracle `fetchPage`; its `except Exception` catches
every raised exception and returns the descriptive string. -/
def scrape_url (fetchPage : String → Except PyExn String) (url : String) : String :=
  match fetchPage url with
  | .ok text => extract_body_content text
  | .error e => "Error scraping page: " ++ e.msg

/-- JSON string escaping as `json.dumps` performs it with the default
`ensure_ascii=True`: the two-character escapes, `\uhhhh` for other control
characters and all non-ASCII characters, surrogate pairs above the BMP. -/
def jsonEscapeChar (c : Char) : String :=
  if c = '"' then "\\\""
  else if c = '\\' then "\\\\"
  else if c = '\n' then "\\n"
  else if c = '\r' then "\\r"
  else if c = '\t' then "\\t"
  else if c.toNat = 8 then "\\b"
  else if c.toNat = 12 then "\\f"
  else if c.toNat < 0x20 then "\\u" ++ hex4 c.toNat
  else if c.toNat < 0x7f then String.mk [c]
  else if c.toNat ≤ 0xffff then "\\u" ++ hex4 c.toNat
  else
    let n := c.toNat - 0x10000
    "\\u" ++ hex4 (0xd800 + n / 0x400) ++ "\\u" ++ hex4 (0xdc00 + n % 0x400)

/-- `json.dumps(s)` of one string. -/
def jsonDumpsStr (s : String) : String :=
  "\"" ++ String.join (s.data.map jsonEscapeChar) ++ "\""

/-- `json.dumps(xs, indent=2)` of a list of strings. -/
def jsonDumpsListIndent2 (xs : List String) : String :=
  match xs with
  | [] => "[]"
  | _ => "[\n" ++ String.intercalate ",\n" (xs.map (fun s => "  " ++ jsonDumpsStr s)) ++ "\n]"

/-- The link-collecting loop of `search_gov_uk`: for each search result,
`result.get("link", "")`, keep truthy links that do not start with
`https://`, prefixed with the gov.uk origin.  `.get` on a non-dict result
and `.startswith` on a truthy non-string link raise. -/
def govUkCollectUrls : List JVal → List String → Except PyExn (List String)
  | [], acc => .ok acc
  | result :: rest, acc =>
    match pyGetAttrGetD result "link" (.jstr "") with
    | .error e => .error e
    | .ok link =>
      if pyTruthy link then
        match pyStartswith link "https://" with
        | .error e => .error e
        | .ok sw =>
          if !sw then govUkCollectUrls rest (acc ++ ["https://www.gov.uk" ++ pyStrJ link])
          else govUkCollectUrls rest acc
      else govUkCollectUrls rest acc

/-- The `try` block of `search_gov_uk`: the search-API call
(`requests.get` + `raise_for_status` + `.json()`) enters as the oracle
`searchJson`; then the results check, link collection, per-URL scraping,
and JSON rendering. -/
def searchGovUkBody (searchJson : String → Except PyExn JVal)
    (fetchPage : String → Except PyExn String) (search_term : String) :
    Except PyExn String :=
  match searchJson search_term with
  | .error e => .error e
  | .ok search_data =>
    match pyGetAttrGet search_data "results" with
    | .error e => .error e
    | .ok resultsOpt =>
      if !(optTruthy resultsOpt) then
        .ok ("No results found for search term: " ++ search_term)
      else
        match pyGetItem search_data "results" with
        | .error e => .error e
        | .ok results =>
          match pyIter results with
          | .error e => .error e
          | .ok items =>
            match govUkCollectUrls items [] with
            | .error e => .error e
            | .ok urls =>
              if urls.isEmpty then
                .ok ("No valid links found in search results for: " ++ search_term)
              else
                .ok (jsonDumpsListIndent2 (urls.map (scrape_url fetchPage)))

/-- `search_gov_uk(search_term)`: the `try`/`except` converts a raised
`requests.RequestException` or any other exception into the two
descriptive error strings. -/
def search_gov_uk (searchJson : String → Except PyExn JVal)
    (fetchPage : String → Except PyExn String) (search_term : String) : String :=
  match searchGovUkBody searchJson fetchPage search_term with
  | .ok s => s
  | .error (.requestException m) => "Error searching gov.uk: " ++ m
  | .error (.otherException m) => "Error processing search results: " ++ m

/-! ### The `wikipedia` tool adapters -/

/-- `search_for_pages(search_term)`: `wikipedia.search` enters as the
oracle `search` (a list of page titles or a raised exception); a success is
rendered with `str(...)`, a failure becomes the descriptive error string. -/
def search_for_pages (search : String → Except PyExn (List String))
    (search_term : String) : String :=
  match search search_term with
  | .ok search_results => pyStrJ (.jarr (search_results.map .jstr))
  | .error e => "Error getting results from wikipedia: " ++ e.msg

/-- `get_page_content(page_title)`: `wikipedia.page(...).content` enters as
the oracle `pageContent`. -/
def get_page_content (pageContent : String → Except PyExn String)
    (page_title : String) : String :=
  match pageContent page_title with
  | .ok content => content
  | .error e => "Error getting results from wikipedia: " ++ e.msg

/-- `summarise_page(topic)`: `wikipedia.summary` enters as the oracle
`summary`. -/
def summarise_page (summary : String → Except PyExn String) (topic : String) : String :=
  match summary topic with
  | .ok s => s
  | .error e => "Error getting results from wikipedia: " ++ e.msg

/-! ### JSON-RPC data model (`mcp.types`) and the three dispatchers -/

/-- A JSON-RPC correlation id (string or number). -/
inductive RequestId where
  | str (s : String)
  | num (n : Int)
  deriving Repr, DecidableEq

/-- A decoded `JSONRPCRequest`. -/
structure JSONRPCRequest where
  jsonrpc : String
  id : RequestId
  method : String
  params : Option (List (String × JVal))

/-- `mcp.types.ErrorData` (the fields the dispatchers populate). -/
structure ErrorData where
  code : Int
  message : String
  deriving Repr, DecidableEq

/-- The dispatcher's return value: a `JSONRPCResponse` or a `JSONRPCError`
(exactly one, since `handle_request` is a total function into this type). -/
inductive HandlerResult where
  | response (jsonrpc : String) (result : JVal) (id : RequestId)
  | error (jsonrpc : String) (error : ErrorData) (id : RequestId)
  deriving Repr

/-- The id carried by a dispatcher result. -/
def HandlerResult.rid : HandlerResult → RequestId
  | .response _ _ i => i
  | .error _ _ i => i

/-- The `jsonrpc` version string carried by a dispatcher result. -/
def HandlerResult.rpcVer : HandlerResult → String
  | .response v _ _ => v
  | .error v _ _ => v

/-- `mcp.types.INVALID_PARAMS` (the JSON-RPC invalid-params code, per the
spec's fixed error-code table). -/
def INVALID_PARAMS : Int := -32602

/-- `mcp.types.INTERNAL_ERROR` (the JSON-RPC internal-error code, per the
spec's fixed error-code table). -/
def INTERNAL_ERROR : Int := -32603

/-- Truthiness of `request.params` (`dict[str, Any] | None`): falsy when
absent or an empty mapping. -/
def paramsTruthy : Option (List (String × JVal)) → Bool
  | none => false
  | some l => !l.isEmpty

/-- The success `result` object every server builds for `tools/call`:
one text content element, the structured result, and `isError: False`. -/
def successResult (result : String) : JVal :=
  .jobj [
    ("content", .jarr [.jobj [("type", .jstr "text"), ("text", .jstr result)]]),
    ("structuredContent", .jobj [("result", .jstr result)]),
    ("isError", .jbool false)]

/-- Required-argument validation plus adapter invocation, shared shape of
every tool branch: `arguments.get(key)` (raising on a non-dict), the
falsiness check with its `"<key> parameter is required"` error, then the
adapter applied to the extracted value. -/
def requireArg (arguments : JVal) (key : String) (adapter : JVal → String) :
    Except PyExn (Sum ErrorData String) :=
  match pyGetAttrGet arguments key with
  | .error e => .error e
  | .ok none => .ok (.inl ⟨INVALID_PARAMS, key ++ " parameter is required"⟩)
  | .ok (some x) =>
    if !(pyTruthy x) then .ok (.inl ⟨INVALID_PARAMS, key ++ " parameter is required"⟩)
    else .ok (.inr (adapter x))

/-- The tool descriptor list of the `gov_uk_acronyms` server. -/
def acronymsToolsJson : JVal := .jarr [.jobj [
  ("name", .jstr "search_gov_uk_acronym"),
  ("description", .jstr "Search for the meaning of UK government acronyms"),
  ("inputSchema", .jobj [
    ("type", .jstr "object"),
    ("properties", .jobj [("acronym", .jobj [
      ("type", .jstr "string"),
      ("title", .jstr "Acronym"),
      ("description", .jstr "The acronym to search for (e.g., DfE, HMRC, NHS)")])]),
    ("required", .jarr [.jstr "acronym"]),
    ("title", .jstr "search_gov_uk_acronymArguments")]),
  ("outputSchema", .jobj [
    ("type", .jstr "object"),
    ("properties", .jobj [("result", .jobj [
      ("type", .jstr "string"),
      ("title", .jstr "Result"),
      ("description", .jstr "The meaning and details of the acronym")])]),
    ("required", .jarr [.jstr "result"]),
    ("title", .jstr "search_gov_uk_acronymOutput")])]]

/-- The `initialize` result of the `gov_uk_acronyms` server. -/
def acronymsInitResult : JVal := .jobj [
  ("protocolVersion", .jstr "2024-11-05"),
  ("capabilities", .jobj [("tools", .jobj [])]),
  ("serverInfo", .jobj [("name", .jstr "gov-uk-acronyms"), ("version", .jstr "1.0.0")])]

/-- The `try` block of `GovUKAcronymsRequestHandler.handle_request`,
parameterized by the tool adapter (`search_gov_uk_acronyms` in the source;
its network I/O makes it enter the embedding as a function parameter
receiving the extracted `acronym` argument value). -/
def govUkAcronymsHandleBody (adapter : JVal → String) (request : JSONRPCRequest) :
    Except PyExn HandlerResult :=
  if request.method = "tools/list" then
    .ok (.response "2.0" (.jobj [("tools", acronymsToolsJson)]) request.id)
  else if request.method = "tools/call" then
    if !(paramsTruthy request.params) then
      .ok (.error "2.0" ⟨INVALID_PARAMS, "Missing parameters"⟩ request.id)
    else
      let params := request.params.getD []
      let tool_name := dictGet params "name"
      if !(isStrVal tool_name "search_gov_uk_acronym") then
        .ok (.error "2.0" ⟨INVALID_PARAMS, "Unknown tool: " ++ pyStrOpt tool_name⟩ request.id)
      else
        let arguments := (dictGet params "arguments").getD (.jobj [])
        match requireArg arguments "acronym" adapter with
        | .error e => .error e
        | .ok (.inl err) => .ok (.error "2.0" err request.id)
        | .ok (.inr result) => .ok (.response "2.0" (successResult result) request.id)
  else if request.method = "initialize" then
    .ok (.response "2.0" acronymsInitResult request.id)
  else if request.method = "ping" then
    .ok (.response "2.0" (.jobj []) request.id)
  else
    .ok (.error "2.0" ⟨-32601, "Method not found: " ++ request.method⟩ request.id)

/-- `GovUKAcronymsRequestHandler.handle_request`: the blanket
`except Exception` converts any exception raised in the body into an
internal-error response. -/
def govUkAcronymsHandleRequest (adapter : JVal → String) (request : JSONRPCRequest) :
    HandlerResult :=
  match govUkAcronymsHandleBody adapter request with
  | Except.ok r => r
  | Except.error e => .error "2.0" ⟨INTERNAL_ERROR, e.msg⟩ request.id

/-- The tool descriptor list of the `gov_uk_search` server. -/
def govUkSearchToolsJson : JVal := .jarr [.jobj [
  ("name", .jstr "search_gov_uk"),
  ("description", .jstr "Searches the gov.uk website for 5 pages and returns raw HTML body content"),
  ("inputSchema", .jobj [
    ("type", .jstr "object"),
    ("properties", .jobj [("search_term", .jobj [
      ("type", .jstr "string"),
      ("title", .jstr "Search Term"),
      ("description", .jstr "The search term to search for on gov.uk")])]),
    ("required", .jarr [.jstr "search_term"]),
    ("title", .jstr "search_gov_ukArguments")]),
  ("outputSchema", .jobj [
    ("type", .jstr "object"),
    ("properties", .jobj [("result", .jobj [
      ("type", .jstr "string"),
      ("title", .jstr "Result"),
      ("description", .jstr "JSON string containing scraped content from gov.uk pages")])]),
    ("required", .jarr [.jstr "result"]),
    ("title", .jstr "search_gov_ukOutput")])]]

/-- The `initialize` result of the `gov_uk_search` server. -/
def govUkSearchInitResult : JVal := .jobj [
  ("protocolVersion", .jstr "2024-11-05"),
  ("capabilities", .jobj [("tools", .jobj [])]),
  ("serverInfo", .jobj [("name", .jstr "gov-uk-search"), ("version", .jstr "1.0.0")])]

/-- The `try` block of `GovUKSearchRequestHandler.handle_request`,
parameterized by the tool adapter (`search_gov_uk` in the source). -/
def govUkSearchHandleBody (adapter : JVal → String) (request : JSONRPCRequest) :
    Except PyExn HandlerResult :=
  if request.method = "tools/list" then
    .ok (.response "2.0" (.jobj [("tools", govUkSearchToolsJson)]) request.id)
  else if request.method = "tools/call" then
    if !(paramsTruthy request.params) then
      .ok (.error "2.0" ⟨INVALID_PARAMS, "Missing parameters"⟩ request.id)
    else
      let params := request.params.getD []
      let tool_name := dictGet params "name"
      if !(isStrVal tool_name "search_gov_uk") then
        .ok (.error "2.0" ⟨INVALID_PARAMS, "Unknown tool: " ++ pyStrOpt tool_name⟩ request.id)
      else
        let arguments := (dictGet params "arguments").getD (.jobj [])
        match requireArg arguments "search_term" adapter with
        | .error e => .error e
        | .ok (.inl err) => .ok (.error "2.0" err request.id)
        | .ok (.inr result) => .ok (.response "2.0" (successResult result) request.id)
  else if request.method = "initialize" then
    .ok (.response "2.0" govUkSearchInitResult request.id)
  else if request.method = "ping" then
    .ok (.response "2.0" (.jobj []) request.id)
  else
    .ok (.error "2.0" ⟨-32601, "Method not found: " ++ request.method⟩ request.id)

/-- `GovUKSearchRequestHandler.handle_request` with its blanket
`except Exception`. -/
def govUkSearchHandleRequest (adapter : JVal → String) (request : JSONRPCRequest) :
    HandlerResult :=
  match govUkSearchHandleBody adapter request with
  | Except.ok r => r
  | Except.error e => .error "2.0" ⟨INTERNAL_ERROR, e.msg⟩ request.id

/-- The tool descriptor list of the `wikipedia` server (three tools). -/
def wikipediaToolsJson : JVal := .jarr [
  .jobj [
    ("name", .jstr "search_for_pages"),
    ("description", .jstr "Searches wikipedia for relevant pages"),
    ("inputSchema", .jobj [
      ("type", .jstr "object"),
      ("properties", .jobj [("search_term", .jobj [
        ("type", .jstr "string"),
        ("title", .jstr "Search Term"),
        ("description", .jstr "The search term to search for on Wikipedia")])]),
      ("required", .jarr [.jstr "search_term"]),
      ("title", .jstr "search_for_pagesArguments")]),
    ("outputSchema", .jobj [
      ("type", .jstr "object"),
      ("properties", .jobj [("result", .jobj [
        ("type", .jstr "string"),
        ("title", .jstr "Result"),
        ("description", .jstr "List of Wikipedia page titles matching the search term")])]),
      ("required", .jarr [.jstr "result"]),
      ("title", .jstr "search_for_pagesOutput")])],
  .jobj [
    ("name", .jstr "get_page_content"),
    ("description", .jstr "Gets information about a specific page based on page title"),
    ("inputSchema", .jobj [
      ("type", .jstr "object"),
      ("properties", .jobj [("page_title", .jobj [
        ("type", .jstr "string"),
        ("title", .jstr "Page Title"),
        ("description", .jstr "The title of the Wikipedia page to retrieve")])]),
      ("required", .jarr [.jstr "page_title"]),
      ("title", .jstr "get_page_contentArguments")]),
    ("outputSchema", .jobj [
      ("type", .jstr "object"),
      ("properties", .jobj [("result", .jobj [
        ("type", .jstr "string"),
        ("title", .jstr "Result"),
        ("description", .jstr "Full content of the Wikipedia page")])]),
      ("required", .jarr [.jstr "result"]),
      ("title", .jstr "get_page_contentOutput")])],
  .jobj [
    ("name", .jstr "summarise_page"),
    ("description", .jstr "Summarises a given wikipedia topic"),
    ("inputSchema", .jobj [
      ("type", .jstr "object"),
      ("properties", .jobj [("topic", .jobj [
        ("type", .jstr "string"),
        ("title", .jstr "Topic"),
        ("description", .jstr "The Wikipedia topic to summarize")])]),
      ("required", .jarr [.jstr "topic"]),
      ("title", .jstr "summarise_pageArguments")]),
    ("outputSchema", .jobj [
      ("type", .jstr "object"),
      ("properties", .jobj [("result", .jobj [
        ("type", .jstr "string"),
        ("title", .jstr "Result"),
        ("description", .jstr "Summary of the Wikipedia topic")])]),
      ("required", .jarr [.jstr "result"]),
      ("title", .jstr "summarise_pageOutput")])]]

/-- The `initialize` result of the `wikipedia` server. -/
def wikipediaInitResult : JVal := .jobj [
  ("protocolVersion", .jstr "2024-11-05"),
  ("capabilities", .jobj [("tools", .jobj [])]),
  ("serverInfo", .jobj [("name", .jstr "wikipedia"), ("version", .jstr "1.0.0")])]

/-- The tool-name dispatch chain of the wikipedia server's `tools/call`
branch: each registered name validates its required argument and invokes
its adapter; an unrecognised name falls to the unknown-tool error. -/
def wikipediaToolDispatch (searchAdapter getAdapter sumAdapter : JVal → String)
    (tool_name : Option JVal) (arguments : JVal) : Except PyExn (Sum ErrorData String) :=
  if isStrVal tool_name "search_for_pages" then
    requireArg arguments "search_term" searchAdapter
  else if isStrVal tool_name "get_page_content" then
    requireArg arguments "page_title" getAdapter
  else if isStrVal tool_name "summarise_page" then
    requireArg arguments "topic" sumAdapter
  else
    .ok (.inl ⟨INVALID_PARAMS, "Unknown tool: " ++ pyStrOpt tool_name⟩)

/-- The `try` block of `WikipediaRequestHandler.handle_request`,
parameterized by the three tool adapters (`search_for_pages`,
`get_page_content`, `summarise_page` in the source). -/
def wikipediaHandleBody (searchAdapter getAdapter sumAdapter : JVal → String)
    (request : JSONRPCRequest) : Except PyExn HandlerResult :=
  if request.method = "tools/list" then
    .ok (.response "2.0" (.jobj [("tools", wikipediaToolsJson)]) request.id)
  else if request.method = "tools/call" then
    if !(paramsTruthy request.params) then
      .ok (.error "2.0" ⟨INVALID_PARAMS, "Missing parameters"⟩ request.id)
    else
      let params := request.params.getD []
      let tool_name := dictGet params "name"
      let arguments := (dictGet params "arguments").getD (.jobj [])
      match wikipediaToolDispatch searchAdapter getAdapter sumAdapter tool_name arguments with
      | .error e => .error e
      | .ok (.inl err) => .ok (.error "2.0" err request.id)
      | .ok (.inr result) => .ok (.response "2.0" (successResult result) request.id)
  else if request.method = "initialize" then
    .ok (.response "2.0" wikipediaInitResult request.id)
  else if request.method = "ping" then
    .ok (.response "2.0" (.jobj []) request.id)
  else
    .ok (.error "2.0" ⟨-32601, "Method not found: " ++ request.method⟩ request.id)

/-- `WikipediaRequestHandler.handle_request` with its blanket
`except Exception`. -/
def wikipediaHandleRequest (searchAdapter getAdapter sumAdapter : JVal → String)
    (request : JSONRPCRequest) : HandlerResult :=
  match wikipediaHandleBody searchAdapter getAdapter sumAdapter request with
  | Except.ok r => r
  | Except.error e => .error "2.0" ⟨INTERNAL_ERROR, e.msg⟩ request.id

/-- Field access on a JSON object result (used to state response-shape
properties). -/
def jfield (v : JVal) (k : String) : Option JVal :=
  match v with
  | .jobj fs => fs.lookup k
  | _ => none

/-- The text of the first `content` element of a `tools/call` result. -/
def contentText (res : JVal) : Option String :=
  match jfield res "content" with
  | some (.jarr (c :: _)) =>
    (match jfield c "text" with
     | some (.jstr t) => some t
     | _ => none)
  | _ => none

/-- The `structuredContent.result` string of a `tools/call` result. -/
def structuredResult (res : JVal) : Option String :=
  match jfield res "structuredContent" with
  | some sc =>
    (match jfield sc "result" with
     | some (.jstr t) => some t
     | _ => none)
  | _ => none

/-- The `isError` flag of a `tools/call` result. -/
def isErrorFlag (res : JVal) : Option Bool :=
  match jfield res "isError" with
  | some (.jbool b) => some b
  | _ => none

/-! ### Shared envelope lemmas -/

/-- Every successful branch of the acronyms dispatcher body carries
`jsonrpc "2.0"` and the request's id. -/
theorem govUkAcronymsBody_envelope (a : JVal → String) (r : JSONRPCRequest)
    (res : HandlerResult) (h : govUkAcronymsHandleBody a r = .ok res) :
    res.rpcVer = "2.0" ∧ res.rid = r.id := by
  unfold govUkAcronymsHandleBody at h
  dsimp only at h
  repeat' split at h
  all_goals first
    | exact Except.noConfusion h
    | (injection h with h; subst h; exact ⟨rfl, rfl⟩)

/-- Every successful branch of the gov.uk-search dispatcher body carries
`jsonrpc "2.0"` and the request's id. -/
theorem govUkSearchBody_envelope (a : JVal → String) (r : JSONRPCRequest)
    (res : HandlerResult) (h : govUkSearchHandleBody a r = .ok res) :
    res.rpcVer = "2.0" ∧ res.rid = r.id := by
  unfold govUkSearchHandleBody at h
  dsimp only at h
  repeat' split at h
  all_goals first
    | exact Except.noConfusion h
    | (injection h with h; subst h; exact ⟨rfl, rfl⟩)

/-- Every successful branch of the wikipedia dispatcher body carries
`jsonrpc "2.0"` and the request's id. -/
theorem wikipediaBody_envelope (s g m : JVal → String) (r : JSONRPCRequest)
    (res : HandlerResult) (h : wikipediaHandleBody s g m r = .ok res) :
    res.rpcVer = "2.0" ∧ res.rid = r.id := by
  unfold wikipediaHandleBody at h
  dsimp only at h
  repeat' split at h
  all_goals first
    | exact Except.noConfusion h
    | (injection h with h; subst h; exact ⟨rfl, rfl⟩)

/-! ### Claim theorems -/

/-- C5: for every request whose method is none of `initialize`, `ping`,
`tools/list`, `tools/call`, each of the three dispatchers returns an
ErrorResponse with code `-32601` and message `"Method not found: "`
followed by the offending method string. -/
theorem unknown_method_gives_32601 :
    ∀ (a s g m : JVal → String) (r : JSONRPCRequest),
      r.method ≠ "tools/list" → r.method ≠ "tools/call" →
      r.method ≠ "initialize" → r.method ≠ "ping" →
      govUkAcronymsHandleRequest a r =
        .error "2.0" ⟨-32601, "Method not found: " ++ r.method⟩ r.id ∧
      govUkSearchHandleRequest a r =
        .error "2.0" ⟨-32601, "Method not found: " ++ r.method⟩ r.id ∧
      wikipediaHandleRequest s g m r =
        .error "2.0" ⟨-32601, "Method not found: " ++ r.method⟩ r.id := by
  intro a s g m r h1 h2 h3 h4
  refine ⟨?_, ?_, ?_⟩
  · unfold govUkAcronymsHandleRequest govUkAcronymsHandleBody
    rw [if_neg h1, if_neg h2, if_neg h3, if_neg h4]
  · unfold govUkSearchHandleRequest govUkSearchHandleBody
    rw [if_neg h1, if_neg h2, if_neg h3, if_neg h4]
  · unfold wikipediaHandleRequest wikipediaHandleBody
    rw [if_neg h1, if_neg h2, if_neg h3, if_neg h4]

/-- C5 witness: the spec's concrete scenario, `method = "bogus"`. -/
theorem unknown_method_gives_32601_witness :
    govUkAcronymsHandleRequest (fun _ => "") ⟨"2.0", .num 1, "bogus", none⟩ =
      .error "2.0" ⟨-32601, "Method not found: " ++ "bogus"⟩ (.num 1) ∧
    govUkSearchHandleRequest (fun _ => "") ⟨"2.0", .num 1, "bogus", none⟩ =
      .error "2.0" ⟨-32601, "Method not found: " ++ "bogus"⟩ (.num 1) ∧
    wikipediaHandleRequest (fun _ => "") (fun _ => "") (fun _ => "")
        ⟨"2.0", .num 1, "bogus", none⟩ =
      .error "2.0" ⟨-32601, "Method not found: " ++ "bogus"⟩ (.num 1) :=
  unknown_method_gives_32601 (fun _ => "") (fun _ => "") (fun _ => "") (fun _ => "")
    ⟨"2.0", .num 1, "bogus", none⟩
    (by decide) (by decide) (by decide) (by decide)

/-- C6: a `tools/call` request whose params field is absent (`None`) or an
empty mapping yields an ErrorResponse with code `-32602` and message
`"Missing parameters"`, on all three dispatchers. -/
theorem toolsCall_missing_params :
    ∀ (a s g m : JVal → String) (r : JSONRPCRequest),
      r.method = "tools/call" →
      r.params = none ∨ r.params = some [] →
      govUkAcronymsHandleRequest a r =
        .error "2.0" ⟨INVALID_PARAMS, "Missing parameters"⟩ r.id ∧
      govUkSearchHandleRequest a r =
        .error "2.0" ⟨INVALID_PARAMS, "Missing parameters"⟩ r.id ∧
      wikipediaHandleRequest s g m r =
        .error "2.0" ⟨INVALID_PARAMS, "Missing parameters"⟩ r.id := by
  intro a s g m r hm hp
  have hfalsy : paramsTruthy r.params = false := by
    rcases hp with hp | hp <;> rw [hp] <;> rfl
  refine ⟨?_, ?_, ?_⟩
  · unfold govUkAcronymsHandleRequest govUkAcronymsHandleBody
    rw [hm]
    simp [hfalsy]
  · unfold govUkSearchHandleRequest govUkSearchHandleBody
    rw [hm]
    simp [hfalsy]
  · unfold wikipediaHandleRequest wikipediaHandleBody
    rw [hm]
    simp [hfalsy]

/-- C6 witness: `params = None` on the acronyms server and `params = {}`
on the other two. -/
theorem toolsCall_missing_params_witness :
    govUkAcronymsHandleRequest (fun _ => "") ⟨"2.0", .num 1, "tools/call", none⟩ =
      .error "2.0" ⟨INVALID_PARAMS, "Missing parameters"⟩ (.num 1) ∧
    govUkSearchHandleRequest (fun _ => "") ⟨"2.0", .num 2, "tools/call", some []⟩ =
      .error "2.0" ⟨INVALID_PARAMS, "Missing parameters"⟩ (.num 2) ∧
    wikipediaHandleRequest (fun _ => "") (fun _ => "") (fun _ => "")
        ⟨"2.0", .num 2, "tools/call", some []⟩ =
      .error "2.0" ⟨INVALID_PARAMS, "Missing parameters"⟩ (.num 2) :=
  ⟨(toolsCall_missing_params (fun _ => "") (fun _ => "") (fun _ => "") (fun _ => "")
      ⟨"2.0", .num 1, "tools/call", none⟩ rfl (Or.inl rfl)).1,
   (toolsCall_missing_params (fun _ => "") (fun _ => "") (fun _ => "") (fun _ => "")
      ⟨"2.0", .num 2, "tools/call", some []⟩ rfl (Or.inr rfl)).2.1,
   (toolsCall_missing_params (fun _ => "") (fun _ => "") (fun _ => "") (fun _ => "")
      ⟨"2.0", .num 2, "tools/call", some []⟩ rfl (Or.inr rfl)).2.2⟩

/-- C9: `initialize` and `ping` succeed on every dispatcher with their
fixed results, for any params (including absent) and any id, without
consulting params. -/
theorem init_and_ping_ignore_params :
    ∀ (a s g m : JVal → String) (ver : String) (i : RequestId)
      (p : Option (List (String × JVal))),
      govUkAcronymsHandleRequest a ⟨ver, i, "initialize", p⟩ =
        .response "2.0" acronymsInitResult i ∧
      govUkAcronymsHandleRequest a ⟨ver, i, "ping", p⟩ =
        .response "2.0" (.jobj []) i ∧
      govUkSearchHandleRequest a ⟨ver, i, "initialize", p⟩ =
        .response "2.0" govUkSearchInitResult i ∧
      govUkSearchHandleRequest a ⟨ver, i, "ping", p⟩ =
        .response "2.0" (.jobj []) i ∧
      wikipediaHandleRequest s g m ⟨ver, i, "initialize", p⟩ =
        .response "2.0" wikipediaInitResult i ∧
      wikipediaHandleRequest s g m ⟨ver, i, "ping", p⟩ =
        .response "2.0" (.jobj []) i := by
  intro a s g m ver i p
  refine ⟨rfl, rfl, rfl, rfl, rfl, rfl⟩

/-- C10: a `tools/call` request with non-empty params but no `name` key is
routed through the unknown-tool branch, with Python's `None` rendered into
the message: ErrorResponse `-32602`, message `"Unknown tool: None"`. -/
theorem toolsCall_missing_name_unknown_none :
    ∀ (a s g m : JVal → String) (r : JSONRPCRequest) (ps : List (String × JVal)),
      r.method = "tools/call" →
      r.params = some ps → ps ≠ [] →
      dictGet ps "name" = none →
      govUkAcronymsHandleRequest a r =
        .error "2.0" ⟨INVALID_PARAMS, "Unknown tool: None"⟩ r.id ∧
      govUkSearchHandleRequest a r =
        .error "2.0" ⟨INVALID_PARAMS, "Unknown tool: None"⟩ r.id ∧
      wikipediaHandleRequest s g m r =
        .error "2.0" ⟨INVALID_PARAMS, "Unknown tool: None"⟩ r.id := by
  intro a s g m r ps hm hp hne hname
  have hps : paramsTruthy (some ps) = true := by
    simp [paramsTruthy, hne]
  refine ⟨?_, ?_, ?_⟩
  · unfold govUkAcronymsHandleRequest govUkAcronymsHandleBody
    rw [hm, hp]
    simp [hps, hname, isStrVal, pyStrOpt]
  · unfold govUkSearchHandleRequest govUkSearchHandleBody
    rw [hm, hp]
    simp [hps, hname, isStrVal, pyStrOpt]
  · unfold wikipediaHandleRequest wikipediaHandleBody
    rw [hm, hp]
    simp [hps, hname, isStrVal, wikipediaToolDispatch, pyStrOpt]

/-- C10 witness: params holding only an `arguments` key. -/
theorem toolsCall_missing_name_unknown_none_witness :
    govUkAcronymsHandleRequest (fun _ => "")
        ⟨"2.0", .num 4, "tools/call", some [("arguments", .jobj [])]⟩ =
      .error "2.0" ⟨INVALID_PARAMS, "Unknown tool: None"⟩ (.num 4) ∧
    govUkSearchHandleRequest (fun _ => "")
        ⟨"2.0", .num 4, "tools/call", some [("arguments", .jobj [])]⟩ =
      .error "2.0" ⟨INVALID_PARAMS, "Unknown tool: None"⟩ (.num 4) ∧
    wikipediaHandleRequest (fun _ => "") (fun _ => "") (fun _ => "")
        ⟨"2.0", .num 4, "tools/call", some [("arguments", .jobj [])]⟩ =
      .error "2.0" ⟨INVALID_PARAMS, "Unknown tool: None"⟩ (.num 4) :=
  toolsCall_missing_name_unknown_none (fun _ => "") (fun _ => "") (fun _ => "") (fun _ => "")
    ⟨"2.0", .num 4, "tools/call", some [("arguments", .jobj [])]⟩
    [("arguments", .jobj [])] rfl rfl (List.cons_ne_nil _ _) rfl

/-- If the required argument is absent or falsy in a dict of arguments,
validation fails with the naming error. -/
theorem requireArg_missing (fs : List (String × JVal)) (key : String) (ad : JVal → String)
    (h : optTruthy (dictGet fs key) = false) :
    requireArg (.jobj fs) key ad =
      .ok (.inl ⟨INVALID_PARAMS, key ++ " parameter is required"⟩) := by
  unfold requireArg pyGetAttrGet
  cases hv : dictGet fs key with
  | none => simp [hv]
  | some x =>
    have hx : pyTruthy x = false := by simpa [optTruthy, hv] using h
    simp [hv, hx]

/-- If the required argument is present and truthy, validation passes and
the adapter is invoked on the argument value. -/
theorem requireArg_ok (fs : List (String × JVal)) (key : String) (ad : JVal → String)
    (v : JVal) (h1 : dictGet fs key = some v) (h2 : pyTruthy v = true) :
    requireArg (.jobj fs) key ad = .ok (.inr (ad v)) := by
  unfold requireArg pyGetAttrGet
  simp [h1, h2]

/-- C7: a `tools/call` request with non-empty params whose `name` value
does not match a tool registered on the receiving server yields an
ErrorResponse with code `-32602` whose message renders the unknown name
(`"Unknown tool: "` followed by the `str()` of the name value). -/
theorem toolsCall_unknown_tool :
    ∀ (a s g m : JVal → String) (r : JSONRPCRequest) (ps : List (String × JVal)),
      r.method = "tools/call" → r.params = some ps → ps ≠ [] →
      (isStrVal (dictGet ps "name") "search_gov_uk_acronym" = false →
        govUkAcronymsHandleRequest a r =
          .error "2.0"
            ⟨INVALID_PARAMS, "Unknown tool: " ++ pyStrOpt (dictGet ps "name")⟩ r.id) ∧
      (isStrVal (dictGet ps "name") "search_gov_uk" = false →
        govUkSearchHandleRequest a r =
          .error "2.0"
            ⟨INVALID_PARAMS, "Unknown tool: " ++ pyStrOpt (dictGet ps "name")⟩ r.id) ∧
      (isStrVal (dictGet ps "name") "search_for_pages" = false →
       isStrVal (dictGet ps "name") "get_page_content" = false →
       isStrVal (dictGet ps "name") "summarise_page" = false →
        wikipediaHandleRequest s g m r =
          .error "2.0"
            ⟨INVALID_PARAMS, "Unknown tool: " ++ pyStrOpt (dictGet ps "name")⟩ r.id) := by
  intro a s g m r ps hm hp hne
  have hps : paramsTruthy (some ps) = true := by simp [paramsTruthy, hne]
  refine ⟨?_, ?_, ?_⟩
  · intro hn
    unfold govUkAcronymsHandleRequest govUkAcronymsHandleBody
    rw [hm, hp]
    simp [hps, hn]
  · intro hn
    unfold govUkSearchHandleRequest govUkSearchHandleBody
    rw [hm, hp]
    simp [hps, hn]
  · intro hn1 hn2 hn3
    unfold wikipediaHandleRequest wikipediaHandleBody wikipediaToolDispatch
    rw [hm, hp]
    simp [hps, hn1, hn2, hn3]

/-- C7 witness: the unregistered tool name `"bogus_tool"` on each server. -/
theorem toolsCall_unknown_tool_witness :
    govUkAcronymsHandleRequest (fun _ => "")
        ⟨"2.0", .num 3, "tools/call", some [("name", .jstr "bogus_tool")]⟩ =
      .error "2.0"
        ⟨INVALID_PARAMS, "Unknown tool: " ++ pyStrOpt (dictGet [("name", .jstr "bogus_tool")] "name")⟩
        (.num 3) ∧
    govUkSearchHandleRequest (fun _ => "")
        ⟨"2.0", .num 3, "tools/call", some [("name", .jstr "bogus_tool")]⟩ =
      .error "2.0"
        ⟨INVALID_PARAMS, "Unknown tool: " ++ pyStrOpt (dictGet [("name", .jstr "bogus_tool")] "name")⟩
        (.num 3) ∧
    wikipediaHandleRequest (fun _ => "") (fun _ => "") (fun _ => "")
        ⟨"2.0", .num 3, "tools/call", some [("name", .jstr "bogus_tool")]⟩ =
      .error "2.0"
        ⟨INVALID_PARAMS, "Unknown tool: " ++ pyStrOpt (dictGet [("name", .jstr "bogus_tool")] "name")⟩
        (.num 3) :=
  have h := toolsCall_unknown_tool (fun _ => "") (fun _ => "") (fun _ => "") (fun _ => "")
    ⟨"2.0", .num 3, "tools/call", some [("name", .jstr "bogus_tool")]⟩
    [("name", .jstr "bogus_tool")] rfl rfl (List.cons_ne_nil _ _)
  ⟨h.1 rfl, h.2.1 rfl, h.2.2 rfl rfl rfl⟩

/-- C8: a `tools/call` request naming a registered tool whose required
parameter is absent from `arguments` (which defaults to an empty mapping
when absent) or present but falsy (e.g. empty) yields an ErrorResponse
with code `-32602` naming the missing parameter — stated for all five
registered tools across the three servers. -/
theorem toolsCall_missing_required_argument :
    ∀ (a s g m : JVal → String) (r : JSONRPCRequest)
      (ps fs : List (String × JVal)),
      r.method = "tools/call" → r.params = some ps → ps ≠ [] →
      (dictGet ps "arguments").getD (.jobj []) = .jobj fs →
      (dictGet ps "name" = some (.jstr "search_gov_uk_acronym") →
       optTruthy (dictGet fs "acronym") = false →
        govUkAcronymsHandleRequest a r =
          .error "2.0" ⟨INVALID_PARAMS, "acronym parameter is required"⟩ r.id) ∧
      (dictGet ps "name" = some (.jstr "search_gov_uk") →
       optTruthy (dictGet fs "search_term") = false →
        govUkSearchHandleRequest a r =
          .error "2.0" ⟨INVALID_PARAMS, "search_term parameter is required"⟩ r.id) ∧
      (dictGet ps "name" = some (.jstr "search_for_pages") →
       optTruthy (dictGet fs "search_term") = false →
        wikipediaHandleRequest s g m r =
          .error "2.0" ⟨INVALID_PARAMS, "search_term parameter is required"⟩ r.id) ∧
      (dictGet ps "name" = some (.jstr "get_page_content") →
       optTruthy (dictGet fs "page_title") = false →
        wikipediaHandleRequest s g m r =
          .error "2.0" ⟨INVALID_PARAMS, "page_title parameter is required"⟩ r.id) ∧
      (dictGet ps "name" = some (.jstr "summarise_page") →
       optTruthy (dictGet fs "topic") = false →
        wikipediaHandleRequest s g m r =
          .error "2.0" ⟨INVALID_PARAMS, "topic parameter is required"⟩ r.id) := by
  intro a s g m r ps fs hm hp hne hargs
  have hps : paramsTruthy (some ps) = true := by simp [paramsTruthy, hne]
  refine ⟨?_, ?_, ?_, ?_, ?_⟩
  · intro hname habs
    unfold govUkAcronymsHandleRequest govUkAcronymsHandleBody
    rw [hm, hp]
    simp only [Option.getD_some, hargs, hname, requireArg_missing fs "acronym" a habs]
    simp [hps, isStrVal]
  · intro hname habs
    unfold govUkSearchHandleRequest govUkSearchHandleBody
    rw [hm, hp]
    simp only [Option.getD_some, hargs, hname, requireArg_missing fs "search_term" a habs]
    simp [hps, isStrVal]
  · intro hname habs
    unfold wikipediaHandleRequest wikipediaHandleBody wikipediaToolDispatch
    rw [hm, hp]
    simp only [Option.getD_some, hargs, hname, requireArg_missing fs "search_term" s habs]
    simp [hps, isStrVal]
  · intro hname habs
    unfold wikipediaHandleRequest wikipediaHandleBody wikipediaToolDispatch
    rw [hm, hp]
    simp only [Option.getD_some, hargs, hname, requireArg_missing fs "page_title" g habs]
    simp [hps, isStrVal]
  · intro hname habs
    unfold wikipediaHandleRequest wikipediaHandleBody wikipediaToolDispatch
    rw [hm, hp]
    simp only [Option.getD_some, hargs, hname, requireArg_missing fs "topic" m habs]
    simp [hps, isStrVal]

/-- C8 witness: `arguments` absent for the acronyms tool (exercising the
empty-mapping default), and an empty-string argument for the wikipedia
summarise tool. -/
theorem toolsCall_missing_required_argument_witness :
    govUkAcronymsHandleRequest (fun _ => "")
        ⟨"2.0", .num 5, "tools/call", some [("name", .jstr "search_gov_uk_acronym")]⟩ =
      .error "2.0" ⟨INVALID_PARAMS, "acronym parameter is required"⟩ (.num 5) ∧
    wikipediaHandleRequest (fun _ => "") (fun _ => "") (fun _ => "")
        ⟨"2.0", .num 6, "tools/call",
          some [("name", .jstr "summarise_page"),
                ("arguments", .jobj [("topic", .jstr "")])]⟩ =
      .error "2.0" ⟨INVALID_PARAMS, "topic parameter is required"⟩ (.num 6) :=
  ⟨((toolsCall_missing_required_argument (fun _ => "") (fun _ => "") (fun _ => "") (fun _ => "")
      ⟨"2.0", .num 5, "tools/call", some [("name", .jstr "search_gov_uk_acronym")]⟩
      [("name", .jstr "search_gov_uk_acronym")] [] rfl rfl (List.cons_ne_nil _ _) rfl).1
      rfl rfl),
   ((toolsCall_missing_required_argument (fun _ => "") (fun _ => "") (fun _ => "") (fun _ => "")
      ⟨"2.0", .num 6, "tools/call",
        some [("name", .jstr "summarise_page"),
              ("arguments", .jobj [("topic", .jstr "")])]⟩
      [("name", .jstr "summarise_page"), ("arguments", .jobj [("topic", .jstr "")])]
      [("topic", .jstr "")] rfl rfl (List.cons_ne_nil _ _) rfl).2.2.2.2
      rfl rfl)⟩

/-- C1: a validated `tools/call` request — non-empty params, registered
tool name, required argument present and truthy — yields a success
Response whose result is exactly the `content`/`structuredContent`/
`isError:false` wrapping of the invoked adapter's raw return string, so
`content[0].text` and `structuredContent.result` both equal that string —
stated for all five registered tools across the three servers. -/
theorem toolsCall_success_shape :
    ∀ (a s g m : JVal → String) (r : JSONRPCRequest)
      (ps fs : List (String × JVal)) (v : JVal),
      r.method = "tools/call" → r.params = some ps → ps ≠ [] →
      (dictGet ps "arguments").getD (.jobj []) = .jobj fs →
      pyTruthy v = true →
      (dictGet ps "name" = some (.jstr "search_gov_uk_acronym") →
       dictGet fs "acronym" = some v →
        govUkAcronymsHandleRequest a r =
          .response "2.0" (successResult (a v)) r.id ∧
        contentText (successResult (a v)) = some (a v) ∧
        structuredResult (successResult (a v)) = some (a v) ∧
        isErrorFlag (successResult (a v)) = some false) ∧
      (dictGet ps "name" = some (.jstr "search_gov_uk") →
       dictGet fs "search_term" = some v →
        govUkSearchHandleRequest a r =
          .response "2.0" (successResult (a v)) r.id ∧
        contentText (successResult (a v)) = some (a v) ∧
        structuredResult (successResult (a v)) = some (a v) ∧
        isErrorFlag (successResult (a v)) = some false) ∧
      (dictGet ps "name" = some (.jstr "search_for_pages") →
       dictGet fs "search_term" = some v →
        wikipediaHandleRequest s g m r =
          .response "2.0" (successResult (s v)) r.id ∧
        contentText (successResult (s v)) = some (s v) ∧
        structuredResult (successResult (s v)) = some (s v) ∧
        isErrorFlag (successResult (s v)) = some false) ∧
      (dictGet ps "name" = some (.jstr "get_page_content") →
       dictGet fs "page_title" = some v →
        wikipediaHandleRequest s g m r =
          .response "2.0" (successResult (g v)) r.id ∧
        contentText (successResult (g v)) = some (g v) ∧
        structuredResult (successResult (g v)) = some (g v) ∧
        isErrorFlag (successResult (g v)) = some false) ∧
      (dictGet ps "name" = some (.jstr "summarise_page") →
       dictGet fs "topic" = some v →
        wikipediaHandleRequest s g m r =
          .response "2.0" (successResult (m v)) r.id ∧
        contentText (successResult (m v)) = some (m v) ∧
        structuredResult (successResult (m v)) = some (m v) ∧
        isErrorFlag (successResult (m v)) = some false) := by
  intro a s g m r ps fs v hm hp hne hargs htr
  have hps : paramsTruthy (some ps) = true := by simp [paramsTruthy, hne]
  refine ⟨?_, ?_, ?_, ?_, ?_⟩
  · intro hname hv
    refine ⟨?_, rfl, rfl, rfl⟩
    unfold govUkAcronymsHandleRequest govUkAcronymsHandleBody
    rw [hm, hp]
    simp only [Option.getD_some, hargs, hname, requireArg_ok fs "acronym" a v hv htr]
    simp [hps, isStrVal]
  · intro hname hv
    refine ⟨?_, rfl, rfl, rfl⟩
    unfold govUkSearchHandleRequest govUkSearchHandleBody
    rw [hm, hp]
    simp only [Option.getD_some, hargs, hname, requireArg_ok fs "search_term" a v hv htr]
    simp [hps, isStrVal]
  · intro hname hv
    refine ⟨?_, rfl, rfl, rfl⟩
    unfold wikipediaHandleRequest wikipediaHandleBody wikipediaToolDispatch
    rw [hm, hp]
    simp only [Option.getD_some, hargs, hname, requireArg_ok fs "search_term" s v hv htr]
    simp [hps, isStrVal]
  · intro hname hv
    refine ⟨?_, rfl, rfl, rfl⟩
    unfold wikipediaHandleRequest wikipediaHandleBody wikipediaToolDispatch
    rw [hm, hp]
    simp only [Option.getD_some, hargs, hname, requireArg_ok fs "page_title" g v hv htr]
    simp [hps, isStrVal]
  · intro hname hv
    refine ⟨?_, rfl, rfl, rfl⟩
    unfold wikipediaHandleRequest wikipediaHandleBody wikipediaToolDispatch
    rw [hm, hp]
    simp only [Option.getD_some, hargs, hname, requireArg_ok fs "topic" m v hv htr]
    simp [hps, isStrVal]

/-- C1 witness: the spec's concrete scenario — acronym `"nhs"` against a
stub adapter returning the NHS sentence — plus the summarise tool with a
stub summariser. -/
theorem toolsCall_success_shape_witness :
    govUkAcronymsHandleRequest (fun _ => "NHS stands for National Health Service.")
        ⟨"2.0", .num 1, "tools/call",
          some [("name", .jstr "search_gov_uk_acronym"),
                ("arguments", .jobj [("acronym", .jstr "nhs")])]⟩ =
      .response "2.0" (successResult "NHS stands for National Health Service.") (.num 1) ∧
    contentText (successResult "NHS stands for National Health Service.") =
      some "NHS stands for National Health Service." ∧
    structuredResult (successResult "NHS stands for National Health Service.") =
      some "NHS stands for National Health Service." ∧
    isErrorFlag (successResult "NHS stands for National Health Service.") = some false ∧
    wikipediaHandleRequest (fun _ => "") (fun _ => "") (fun _ => "a summary")
        ⟨"2.0", .num 2, "tools/call",
          some [("name", .jstr "summarise_page"),
                ("arguments", .jobj [("topic", .jstr "Lean")])]⟩ =
      .response "2.0" (successResult "a summary") (.num 2) :=
  have h1 := (toolsCall_success_shape
    (fun _ => "NHS stands for National Health Service.") (fun _ => "") (fun _ => "")
    (fun _ => "")
    ⟨"2.0", .num 1, "tools/call",
      some [("name", .jstr "search_gov_uk_acronym"),
            ("arguments", .jobj [("acronym", .jstr "nhs")])]⟩
    [("name", .jstr "search_gov_uk_acronym"), ("arguments", .jobj [("acronym", .jstr "nhs")])]
    [("acronym", .jstr "nhs")] (.jstr "nhs")
    rfl rfl (List.cons_ne_nil _ _) rfl rfl).1 rfl rfl
  have h2 := (toolsCall_success_shape
    (fun _ => "") (fun _ => "") (fun _ => "") (fun _ => "a summary")
    ⟨"2.0", .num 2, "tools/call",
      some [("name", .jstr "summarise_page"),
            ("arguments", .jobj [("topic", .jstr "Lean")])]⟩
    [("name", .jstr "summarise_page"), ("arguments", .jobj [("topic", .jstr "Lean")])]
    [("topic", .jstr "Lean")] (.jstr "Lean")
    rfl rfl (List.cons_ne_nil _ _) rfl rfl).2.2.2.2 rfl rfl
  ⟨h1.1, h1.2.1, h1.2.2.1, h1.2.2.2, h2.1⟩

/-- C2: every request — any method, params, and id — produces exactly one
dispatcher result (the dispatchers are total functions into the
response-or-error sum), and that result carries `jsonrpc "2.0"` and the
request's id, on all three servers. -/
theorem handleRequest_envelope :
    ∀ (a s g m : JVal → String) (r : JSONRPCRequest),
      ((govUkAcronymsHandleRequest a r).rpcVer = "2.0" ∧
       (govUkAcronymsHandleRequest a r).rid = r.id) ∧
      ((govUkSearchHandleRequest a r).rpcVer = "2.0" ∧
       (govUkSearchHandleRequest a r).rid = r.id) ∧
      ((wikipediaHandleRequest s g m r).rpcVer = "2.0" ∧
       (wikipediaHandleRequest s g m r).rid = r.id) := by
  intro a s g m r
  refine ⟨?_, ?_, ?_⟩
  · unfold govUkAcronymsHandleRequest
    cases h : govUkAcronymsHandleBody a r with
    | ok res => exact govUkAcronymsBody_envelope a r res h
    | error e => exact ⟨rfl, rfl⟩
  · unfold govUkSearchHandleRequest
    cases h : govUkSearchHandleBody a r with
    | ok res => exact govUkSearchBody_envelope a r res h
    | error e => exact ⟨rfl, rfl⟩
  · unfold wikipediaHandleRequest
    cases h : wikipediaHandleBody s g m r with
    | ok res => exact wikipediaBody_envelope s g m r res h
    | error e => exact ⟨rfl, rfl⟩

/-- C4: whenever the dispatcher body (the `try` block) raises an
exception, the blanket handler converts it into an ErrorResponse with code
`-32603` carrying the exception's message text, on all three servers; the
dispatcher still returns a well-formed result. -/
theorem uncaught_exception_internal_error :
    ∀ (a s g m : JVal → String) (r : JSONRPCRequest) (e : PyExn),
      (govUkAcronymsHandleBody a r = .error e →
        govUkAcronymsHandleRequest a r =
          .error "2.0" ⟨INTERNAL_ERROR, e.msg⟩ r.id) ∧
      (govUkSearchHandleBody a r = .error e →
        govUkSearchHandleRequest a r =
          .error "2.0" ⟨INTERNAL_ERROR, e.msg⟩ r.id) ∧
      (wikipediaHandleBody s g m r = .error e →
        wikipediaHandleRequest s g m r =
          .error "2.0" ⟨INTERNAL_ERROR, e.msg⟩ r.id) := by
  intro a s g m r e
  refine ⟨?_, ?_, ?_⟩
  · intro h
    unfold govUkAcronymsHandleRequest
    rw [h]
  · intro h
    unfold govUkSearchHandleRequest
    rw [h]
  · intro h
    unfold wikipediaHandleRequest
    rw [h]

/-- C4 witness: a `tools/call` whose `arguments` value is the integer `7`,
so `arguments.get(...)` raises `AttributeError`, reported as the internal
error `"\x27int\x27 object has no attribute \x27get\x27"`. -/
theorem uncaught_exception_internal_error_witness :
    govUkAcronymsHandleBody (fun _ => "")
        ⟨"2.0", .num 5, "tools/call",
          some [("name", .jstr "search_gov_uk_acronym"), ("arguments", .jnum 7)]⟩ =
      .error (.otherException "\x27int\x27 object has no attribute \x27get\x27") ∧
    govUkAcronymsHandleRequest (fun _ => "")
        ⟨"2.0", .num 5, "tools/call",
          some [("name", .jstr "search_gov_uk_acronym"), ("arguments", .jnum 7)]⟩ =
      .error "2.0"
        ⟨INTERNAL_ERROR,
         PyExn.msg (.otherException "\x27int\x27 object has no attribute \x27get\x27")⟩
        (.num 5) ∧
    wikipediaHandleRequest (fun _ => "") (fun _ => "") (fun _ => "")
        ⟨"2.0", .num 5, "tools/call",
          some [("name", .jstr "summarise_page"), ("arguments", .jnum 7)]⟩ =
      .error "2.0"
        ⟨INTERNAL_ERROR,
         PyExn.msg (.otherException "\x27int\x27 object has no attribute \x27get\x27")⟩
        (.num 5) :=
  ⟨rfl,
   (uncaught_exception_internal_error (fun _ => "") (fun _ => "") (fun _ => "") (fun _ => "")
      ⟨"2.0", .num 5, "tools/call",
        some [("name", .jstr "search_gov_uk_acronym"), ("arguments", .jnum 7)]⟩
      (.otherException "\x27int\x27 object has no attribute \x27get\x27")).1 rfl,
   (uncaught_exception_internal_error (fun _ => "") (fun _ => "") (fun _ => "") (fun _ => "")
      ⟨"2.0", .num 5, "tools/call",
        some [("name", .jstr "summarise_page"), ("arguments", .jnum 7)]⟩
      (.otherException "\x27int\x27 object has no attribute \x27get\x27")).2.2 rfl⟩

/-- C3: every adapter function is total at its boundary: whatever the
external lookup does — return a value or raise either exception class —
the adapter returns a string (it is a total Lean function into `String`)
and never propagates the exception: a raised exception becomes the
adapter's descriptive error string, and a returned value becomes the
adapter's ordinary result. -/
theorem adapters_total_at_boundary :
    (∀ (ws : String → Except PyExn (List String)) (q : String) (rs : List String),
      ws q = Except.ok rs →
        search_for_pages ws q = pyStrJ (.jarr (rs.map .jstr))) ∧
    (∀ (ws : String → Except PyExn (List String)) (q : String) (e : PyExn),
      ws q = Except.error e →
        search_for_pages ws q = "Error getting results from wikipedia: " ++ e.msg) ∧
    (∀ (pc : String → Except PyExn String) (t c : String),
      pc t = Except.ok c → get_page_content pc t = c) ∧
    (∀ (pc : String → Except PyExn String) (t : String) (e : PyExn),
      pc t = Except.error e →
        get_page_content pc t = "Error getting results from wikipedia: " ++ e.msg) ∧
    (∀ (sm : String → Except PyExn String) (t c : String),
      sm t = Except.ok c → summarise_page sm t = c) ∧
    (∀ (sm : String → Except PyExn String) (t : String) (e : PyExn),
      sm t = Except.error e →
        summarise_page sm t = "Error getting results from wikipedia: " ++ e.msg) ∧
    (∀ (fetch : Except PyExn String) (a html : String),
      fetch = Except.ok html →
        search_gov_uk_acronyms fetch a = acronymsProcess html a) ∧
    (∀ (a msg : String),
      search_gov_uk_acronyms (Except.error (.requestException msg)) a =
        "Error fetching data from UK government acronyms database: " ++ msg) ∧
    (∀ (a msg : String),
      search_gov_uk_acronyms (Except.error (.otherException msg)) a =
        "Error processing acronym lookup: " ++ msg) ∧
    (∀ (sj : String → Except PyExn JVal) (fp : String → Except PyExn String)
       (q out : String),
      searchGovUkBody sj fp q = Except.ok out → search_gov_uk sj fp q = out) ∧
    (∀ (sj : String → Except PyExn JVal) (fp : String → Except PyExn String)
       (q msg : String),
      searchGovUkBody sj fp q = Except.error (.requestException msg) →
        search_gov_uk sj fp q = "Error searching gov.uk: " ++ msg) ∧
    (∀ (sj : String → Except PyExn JVal) (fp : String → Except PyExn String)
       (q msg : String),
      searchGovUkBody sj fp q = Except.error (.otherException msg) →
        search_gov_uk sj fp q = "Error processing search results: " ++ msg) := by
  refine ⟨?_, ?_, ?_, ?_, ?_, ?_, ?_, ?_, ?_, ?_, ?_, ?_⟩
  · intro ws q rs h
    unfold search_for_pages
    rw [h]
  · intro ws q e h
    unfold search_for_pages
    rw [h]
  · intro pc t c h
    unfold get_page_content
    rw [h]
  · intro pc t e h
    unfold get_page_content
    rw [h]
  · intro sm t c h
    unfold summarise_page
    rw [h]
  · intro sm t e h
    unfold summarise_page
    rw [h]
  · intro fetch a html h
    unfold search_gov_uk_acronyms
    rw [h]
  · intro a msg
    rfl
  · intro a msg
    rfl
  · intro sj fp q out h
    unfold search_gov_uk
    rw [h]
  · intro sj fp q msg h
    unfold search_gov_uk
    rw [h]
  · intro sj fp q msg h
    unfold search_gov_uk
    rw [h]

/-- C3 witness: each adapter evaluated under a concrete succeeding oracle
and a concrete raising oracle. -/
theorem adapters_total_at_boundary_witness :
    search_for_pages (fun _ => Except.ok ["Lean"]) "q" =
      pyStrJ (.jarr [.jstr "Lean"]) ∧
    search_for_pages (fun _ => Except.error (.otherException "down")) "q" =
      "Error getting results from wikipedia: " ++ PyExn.msg (.otherException "down") ∧
    get_page_content (fun _ => Except.ok "full text") "T" = "full text" ∧
    get_page_content (fun _ => Except.error (.otherException "missing")) "T" =
      "Error getting results from wikipedia: " ++ PyExn.msg (.otherException "missing") ∧
    summarise_page (fun _ => Except.ok "short") "T" = "short" ∧
    summarise_page (fun _ => Except.error (.requestException "net")) "T" =
      "Error getting results from wikipedia: " ++ PyExn.msg (.requestException "net") ∧
    search_gov_uk_acronyms (Except.ok "<table></table>") "NHS" =
      acronymsProcess "<table></table>" "NHS" ∧
    search_gov_uk_acronyms (Except.error (.requestException "timeout")) "NHS" =
      "Error fetching data from UK government acronyms database: " ++ "timeout" ∧
    search_gov_uk_acronyms (Except.error (.otherException "oops")) "NHS" =
      "Error processing acronym lookup: " ++ "oops" ∧
    search_gov_uk (fun _ => Except.ok (.jobj [])) (fun _ => Except.ok "") "tax" =
      "No results found for search term: tax" ∧
    search_gov_uk (fun _ => Except.error (.requestException "timeout")) (fun _ => Except.ok "")
        "tax" = "Error searching gov.uk: " ++ "timeout" ∧
    search_gov_uk (fun _ => Except.ok (.jarr [])) (fun _ => Except.ok "") "tax" =
      "Error processing search results: " ++
        "\x27list\x27 object has no attribute \x27get\x27" :=
  ⟨adapters_total_at_boundary.1 _ "q" ["Lean"] rfl,
   adapters_total_at_boundary.2.1 _ "q" (.otherException "down") rfl,
   adapters_total_at_boundary.2.2.1 _ "T" "full text" rfl,
   adapters_total_at_boundary.2.2.2.1 _ "T" (.otherException "missing") rfl,
   adapters_total_at_boundary.2.2.2.2.1 _ "T" "short" rfl,
   adapters_total_at_boundary.2.2.2.2.2.1 _ "T" (.requestException "net") rfl,
   adapters_total_at_boundary.2.2.2.2.2.2.1 _ "NHS" "<table></table>" rfl,
   adapters_total_at_boundary.2.2.2.2.2.2.2.1 "NHS" "timeout",
   adapters_total_at_boundary.2.2.2.2.2.2.2.2.1 "NHS" "oops",
   adapters_total_at_boundary.2.2.2.2.2.2.2.2.2.1 _ _ "tax"
     "No results found for search term: tax" rfl,
   adapters_total_at_boundary.2.2.2.2.2.2.2.2.2.2.1 _ _ "tax" "timeout" rfl,
   adapters_total_at_boundary.2.2.2.2.2.2.2.2.2.2.2 _ _ "tax"
     "\x27list\x27 object has no attribute \x27get\x27" rfl⟩

end McpServers
